import Mathlib

/-!
Shallow embedding of `matrix-lastactive` (`src/lib.ts`), the
`MatrixActivityTracker` class, verified against the repository's
natural-language specification.

Modelling conventions:
* JS numbers that hold millisecond timestamps/durations are embedded as `Int`
  (subtraction may go negative; `Date.now()` is an explicit `now` input).
* The network collaborator (`MatrixClient`) is an explicit environment value:
  the outcome of the capability probe, the presence request and the who-is
  request are inputs to `isUserOnline`.
* Fallible steps are `Except`; a thrown JS exception that escapes the method
  is an `Except.error`.
* JS truthiness on `number | undefined` values (`if (lastActiveTime)`,
  `presence.lastActiveAgo && ...`, `... || 0`) is embedded explicitly:
  `none` (undefined) and `some 0` are falsy.
-/

/-- One connection of a who-is record, carrying its `last_seen` instant. -/
structure Connection where
  last_seen : Int
deriving DecidableEq, Repr

/-- A session of a who-is record: a collection of connections. -/
structure Session where
  connections : List Connection
deriving DecidableEq, Repr

/-- A device of a who-is record: a collection of sessions. -/
structure Device where
  sessions : List Session
deriving DecidableEq, Repr

/-- The who-is record: `Object.values(whois.devices)` as a list of devices. -/
structure WhoisInfo where
  devices : List Device
deriving DecidableEq, Repr

/-- The presence snapshot returned by `getPresenceStatusFor`.
`currentlyActive` is optional in the protocol; `undefined` behaves as `false`
under JS truthiness, so it is embedded as `Bool`.  `lastActiveAgo` may be
absent (`none` = JS `undefined`). -/
structure Presence where
  currentlyActive : Bool
  state : String
  lastActiveAgo : Option Int
deriving DecidableEq, Repr

/-- Outcome of the one-shot capability probe request
(`doRequest("POST", "/_synapse/admin/v1/send_server_notice", null, {})`):
either the request succeeds, or it throws an exception whose `statusCode`
field may be absent (`none` = JS `undefined`). -/
inductive ProbeResult where
  | success
  | failure (statusCode : Option Int)
deriving DecidableEq, Repr

/-- Errors that escape `isUserOnline` as a rejected promise:
a failed who-is request, or the `TypeError` raised by reading
`.last_seen` of `undefined` when the connection list is empty. -/
inductive TrackerError where
  | whoisRequestFailed
  | emptyConnections
deriving DecidableEq, Repr

/-- The verdict returned by `isUserOnline`. -/
structure Verdict where
  online : Bool
  inactiveMs : Int
deriving DecidableEq, Repr

/-- Constructor options (`MatrixActivityTrackerOpts`), restricted to the
fields the decision logic reads.  `homeserverUrl`, `accessToken` and `logger`
are passed through to the `MatrixClient` collaborator and never consulted. -/
structure TrackerOpts where
  serverName : String
  defaultOnline : Bool
  usePresence : Bool
deriving DecidableEq, Repr

/-- The mutable state of a `MatrixActivityTracker` instance. -/
structure TrackerState where
  opts : TrackerOpts
  lastActiveTime : String → Option Int
  canUseWhois : Option Bool

/-- The network environment of one `isUserOnline` call: the current clock
reading and the outcome each request would have if issued. -/
structure Env where
  probe : ProbeResult
  presence : Except Unit Presence
  whois : Except Unit WhoisInfo
  now : Int

/-- The constructor: resolves `usePresence` to `true` when the option is
absent (`opts.usePresence = opts.usePresence !== undefined ? opts.usePresence
: true`), starts with an empty cache and a `null` capability flag. -/
def mkTracker (serverName : String) (defaultOnline : Bool)
    (usePresence : Option Bool) : TrackerState :=
  { opts := { serverName := serverName, defaultOnline := defaultOnline,
              usePresence := usePresence.getD true },
    lastActiveTime := fun _ => none,
    canUseWhois := none }

/-- `bumpLastActiveTime(userId)`: sets the cache entry for `userId` to
`Date.now()` (the explicit `now` argument here). -/
def bumpLastActiveTime (st : TrackerState) (userId : String) (now : Int) :
    TrackerState :=
  { st with lastActiveTime := fun v => if v = userId then some now else st.lastActiveTime v }

/-- `setLastActiveTime(userId, ts)`: sets the cache entry for `userId` to the
given timestamp. -/
def setLastActiveTime (st : TrackerState) (userId : String) (ts : Int) :
    TrackerState :=
  { st with lastActiveTime := fun v => if v = userId then some ts else st.lastActiveTime v }

/-- Interpretation of the capability probe outcome: success sets the flag to
`false` ("This should never succeed, but prevent it from trying anyway");
a thrown exception sets it to `ex.statusCode !== 403`. -/
def probeInterpret : ProbeResult → Bool
  | .success => false
  | .failure statusCode => statusCode != some 403

/-- The capability flag used by the call: the cached boolean when already
resolved, otherwise the interpretation of this call's probe outcome. -/
def resolveWhoisFlag (cur : Option Bool) (probe : ProbeResult) : Bool :=
  match cur with
  | some b => b
  | none => probeInterpret probe

/-- JS `String.prototype.split` with a single-character separator,
char-by-char: models `userId.split(":")`. -/
def splitCharAux (sep : Char) : List Char → List Char → List String
  | [], acc => [String.mk acc.reverse]
  | c :: cs, acc =>
      if c = sep then String.mk acc.reverse :: splitCharAux sep cs []
      else splitCharAux sep cs (c :: acc)

/-- `userId.split(":")` as a list of segments. -/
def splitColon (s : String) : List String :=
  splitCharAux ':' s.data []

/-- `userId.split(":")[1]`: the domain segment of a Matrix user id, or
`none` (JS `undefined`) when the id has no `:`. -/
def domainSegment (userId : String) : Option String :=
  (splitColon userId)[1]?

/-- The local cache check (lines 90–97): the entry must be truthy (present
and nonzero) and fresher than `maxTimeMs`; then the call returns early with
`online = true`, `inactiveMs = now - lastActiveTime`. -/
def cacheVerdict (entry : Option Int) (now maxTimeMs : Int) : Option Verdict :=
  match entry with
  | some lastActiveTime =>
      if lastActiveTime != 0 && now - lastActiveTime < maxTimeMs then
        some { online := true, inactiveMs := now - lastActiveTime }
      else none
  | none => none

/-- The presence check (lines 100–111): skipped when `usePresence` is false;
a failed presence request is swallowed by the `catch` (inconclusive);
`currentlyActive || state === "online"` is conclusive online with
`inactiveMs = lastActiveAgo || 0`; a truthy `lastActiveAgo` above `maxTimeMs`
is conclusive offline; anything else is inconclusive. -/
def presenceVerdict (usePresence : Bool) (res : Except Unit Presence)
    (maxTimeMs : Int) : Option Verdict :=
  if usePresence then
    match res with
    | .error _ => none
    | .ok presence =>
        if presence.currentlyActive || presence.state == "online" then
          some { online := true,
                 inactiveMs := match presence.lastActiveAgo with
                               | some v => v
                               | none => 0 }
        else
          match presence.lastActiveAgo with
          | some lastActiveAgo =>
              if lastActiveAgo != 0 && maxTimeMs < lastActiveAgo then
                some { online := false, inactiveMs := lastActiveAgo }
              else none
          | none => none
  else none

/-- Flattening of the who-is record (line 120):
`Object.values(whois.devices).flatMap(device =>
  device.sessions.flatMap(session => session.connections))`. -/
def whoisConnections (whois : WhoisInfo) : List Connection :=
  whois.devices.flatMap fun device =>
    device.sessions.flatMap fun session => session.connections

/-- One step of the descending sort on `last_seen`: insert a connection in
front of the first element it is not older than. -/
def insertDesc (c : Connection) : List Connection → List Connection
  | [] => [c]
  | x :: xs =>
      if x.last_seen ≤ c.last_seen then c :: x :: xs else x :: insertDesc c xs

/-- `connections.sort((conA, conB) => conB.last_seen - conA.last_seen)`:
a sort that orders connections by descending `last_seen`. -/
def sortByLastSeenDesc : List Connection → List Connection
  | [] => []
  | c :: cs => insertDesc c (sortByLastSeenDesc cs)

/-- `isUserOnline(userId, maxTimeMs, defaultOnline?)` (lines 76–123).
Returns the outcome of the call (a verdict, or the exception that escapes)
together with the state of the tracker after the call; the only mutation the
method performs is the one-shot resolution of `canUseWhois`, which happens
before any early return. -/
def isUserOnline (st : TrackerState) (env : Env) (userId : String)
    (maxTimeMs : Int) (defaultOnline? : Option Bool) :
    Except TrackerError Verdict × TrackerState :=
  let defaultOnline := match defaultOnline? with
                       | some b => b
                       | none => st.opts.defaultOnline
  let canUseWhois := resolveWhoisFlag st.canUseWhois env.probe
  let now := env.now
  let result : Except TrackerError Verdict :=
    match cacheVerdict (st.lastActiveTime userId) now maxTimeMs with
    | some v => .ok v
    | none =>
      match presenceVerdict st.opts.usePresence env.presence maxTimeMs with
      | some v => .ok v
      | none =>
        if !canUseWhois || (domainSegment userId != some st.opts.serverName) then
          .ok { online := defaultOnline, inactiveMs := -1 }
        else
          match env.whois with
          | .error _ => .error .whoisRequestFailed
          | .ok whois =>
            match sortByLastSeenDesc (whoisConnections whois) with
            | [] => .error .emptyConnections
            | bestConnection :: _ =>
                .ok { online := decide (now - bestConnection.last_seen < maxTimeMs),
                      inactiveMs := now - bestConnection.last_seen }
  (result, { st with canUseWhois := some canUseWhois })

/-! ## Helper lemmas about the descending sort -/

theorem insertDesc_ne_nil (c : Connection) (l : List Connection) :
    insertDesc c l ≠ [] := by
  cases l with
  | nil => simp [insertDesc]
  | cons x xs =>
      simp only [insertDesc]
      split <;> simp

theorem sortByLastSeenDesc_eq_nil_iff (l : List Connection) :
    sortByLastSeenDesc l = [] ↔ l = [] := by
  cases l with
  | nil => simp [sortByLastSeenDesc]
  | cons c cs =>
      simp only [sortByLastSeenDesc]
      constructor
      · intro h; exact absurd h (insertDesc_ne_nil c _)
      · intro h; cases h

/-- The first element of the descending sort of a nonempty list is an element
of the list whose `last_seen` dominates every element's. -/
theorem sortByLastSeenDesc_head_max (l : List Connection) (hne : l ≠ []) :
    ∃ hd t, sortByLastSeenDesc l = hd :: t ∧ hd ∈ l ∧
      ∀ y ∈ l, y.last_seen ≤ hd.last_seen := by
  induction l with
  | nil => exact absurd rfl hne
  | cons c cs ih =>
      cases hcs : cs with
      | nil =>
          subst hcs
          exact ⟨c, [], rfl, List.mem_cons_self c [], by
            intro y hy
            rcases List.mem_cons.mp hy with rfl | hy
            · exact le_refl _
            · cases hy⟩
      | cons d ds =>
          subst hcs
          obtain ⟨hd, t, hsort, hmem, hmax⟩ := ih (by simp)
          by_cases hle : hd.last_seen ≤ c.last_seen
          · refine ⟨c, hd :: t, ?_, List.mem_cons_self c _, ?_⟩
            · show insertDesc c (sortByLastSeenDesc (d :: ds)) = c :: hd :: t
              rw [hsort]
              simp only [insertDesc, hle, if_true]
            · intro y hy
              rcases List.mem_cons.mp hy with rfl | hy
              · exact le_refl _
              · exact le_trans (hmax y hy) hle
          · refine ⟨hd, insertDesc c t, ?_, List.mem_cons_of_mem c hmem, ?_⟩
            · show insertDesc c (sortByLastSeenDesc (d :: ds)) = hd :: insertDesc c t
              rw [hsort]
              simp only [insertDesc, hle, if_false]
            · intro y hy
              rcases List.mem_cons.mp hy with rfl | hy
              · exact le_of_lt (lt_of_not_le hle)
              · exact hmax y hy

/-! ## Concrete tracker states and environments used as test inputs -/

/-- A tracker for `example.com` whose cache holds `"@u:example.com" ↦ 3`. -/
def bumpedSt : TrackerState :=
  setLastActiveTime (mkTracker "example.com" false none) "@u:example.com" 3

/-- An environment where every request fails (probe with the 403 rejection)
and the clock reads 5. -/
def quietEnv : Env :=
  { probe := .failure (some 403), presence := .error (), whois := .error (),
    now := 5 }

/-- A tracker for `example.com`, presence disabled, capability unresolved. -/
def freshProbeSt : TrackerState := mkTracker "example.com" false (some false)

/-- An environment whose capability probe fails with status 500. -/
def failProbeEnv : Env :=
  { probe := .failure (some 500), presence := .error (), whois := .error (),
    now := 5 }

/-- An environment whose capability probe request succeeds. -/
def succProbeEnv : Env :=
  { probe := .success, presence := .error (), whois := .error (), now := 5 }

/-- A tracker whose cache holds the entry `"@u:example.com" ↦ 0` (the JS
timestamp `0` is falsy) and whose capability is resolved unusable. -/
def zeroEntrySt : TrackerState :=
  setLastActiveTime { freshProbeSt with canUseWhois := some false }
    "@u:example.com" 0

/-- A tracker with capability resolved unusable and an empty cache. -/
def noWhoisSt : TrackerState := { freshProbeSt with canUseWhois := some false }

/-- A tracker with capability resolved usable and an empty cache. -/
def whoisReadySt : TrackerState := { freshProbeSt with canUseWhois := some true }

/-- A who-is record with three connections, last seen at -500, -2500 and
-1500, spread over two devices. -/
def sampleWhois : WhoisInfo :=
  ⟨[⟨[⟨[⟨-500⟩, ⟨-2500⟩]⟩]⟩, ⟨[⟨[⟨-1500⟩]⟩]⟩]⟩

/-- An environment whose who-is request returns `sampleWhois` at clock 0. -/
def whoisEnv : Env :=
  { probe := .failure (some 403), presence := .error (),
    whois := .ok sampleWhois, now := 0 }

/-- An environment whose who-is request returns a record with one device,
one session and zero connections. -/
def emptyWhoisEnv : Env :=
  { probe := .failure (some 403), presence := .error (),
    whois := .ok ⟨[⟨[⟨[]⟩]⟩]⟩, now := 0 }

/-- A presence snapshot that is currently active with `lastActiveAgo` 200. -/
def activePresence : Presence :=
  { currentlyActive := true, state := "unavailable", lastActiveAgo := some 200 }

/-- A tracker with presence enabled and capability resolved unusable. -/
def presenceSt : TrackerState :=
  { mkTracker "example.com" false (some true) with canUseWhois := some false }

/-- An environment whose presence request returns `activePresence`. -/
def presenceEnv : Env :=
  { probe := .failure (some 403), presence := .ok activePresence,
    whois := .error (), now := 5 }

/-- A presence snapshot carrying no conclusive signal: not currently active,
state offline, no `lastActiveAgo`. -/
def inconclusivePresence : Presence :=
  { currentlyActive := false, state := "offline", lastActiveAgo := none }

/-! ## Claim theorems -/

/-- C1, counterexample: the claim fails for a cache entry whose timestamp is
`0`.  `zeroEntrySt` holds the entry `"@u:example.com" ↦ 0`, the clock reads
`5`, so the elapsed time `5 - 0 = 5` is strictly below `maxTimeMs = 10`, yet
the call does not return `online = true, inactiveMs = 5`: the JS guard
`if (lastActiveTime)` treats the timestamp `0` as falsy and falls through to
the default branch. -/
theorem c1_cache_zero_entry_cex :
    zeroEntrySt.lastActiveTime "@u:example.com" = some 0 ∧
    (5 : Int) - 0 < 10 ∧ quietEnv.now = 5 ∧
    (isUserOnline zeroEntrySt quietEnv "@u:example.com" 10 none).1 ≠
      Except.ok { online := true, inactiveMs := 5 - 0 } := by
  refine ⟨rfl, by decide, rfl, fun h => ?_⟩
  rw [show (isUserOnline zeroEntrySt quietEnv "@u:example.com" 10 none).1 =
      Except.ok { online := false, inactiveMs := -1 } from rfl] at h
  simp at h

/-- C1, amended: for every user with a recency-cache entry with a *nonzero*
timestamp whose elapsed time (now minus entry) is strictly less than
`maxTimeMs`, `isUserOnline` returns `online = true` with `inactiveMs` equal
to that elapsed time, for every presence/who-is configuration. -/
theorem c1_cache_short_circuit (st : TrackerState) (env : Env)
    (userId : String) (maxTimeMs : Int) (defaultOnline? : Option Bool)
    (t : Int) (hentry : st.lastActiveTime userId = some t) (ht : t ≠ 0)
    (hfresh : env.now - t < maxTimeMs) :
    (isUserOnline st env userId maxTimeMs defaultOnline?).1 =
      Except.ok { online := true, inactiveMs := env.now - t } := by
  have hc : cacheVerdict (st.lastActiveTime userId) env.now maxTimeMs =
      some { online := true, inactiveMs := env.now - t } := by
    simp [cacheVerdict, hentry, ht, hfresh]
  simp [isUserOnline, hc]

/-- C1, witness: a tracker whose cache holds `"@u:example.com" ↦ 3` at clock
`5` answers `online = true, inactiveMs = 2` for `maxTimeMs = 10`, although
every network request in `quietEnv` fails. -/
theorem c1_cache_short_circuit_witness :
    (isUserOnline bumpedSt quietEnv "@u:example.com" 10 none).1 =
      Except.ok { online := true, inactiveMs := 2 } :=
  c1_cache_short_circuit bumpedSt quietEnv "@u:example.com" 10 none 3
    rfl (by decide) (by decide)

/-- C2, counterexample: the claim fails for the success outcome of the probe.
With an unresolved flag and a probe request that succeeds — an outcome that
is not the 403 rejection — the flag is set to `false` (unusable), not `true`:
line 82 sets `canUseWhois = false` when the request succeeds. -/
theorem c2_probe_success_cex :
    freshProbeSt.canUseWhois = none ∧
    succProbeEnv.probe = .success ∧
    (isUserOnline freshProbeSt succProbeEnv "@u:example.com" 10 none).2.canUseWhois
      = some false ∧
    (isUserOnline freshProbeSt succProbeEnv "@u:example.com" 10 none).2.canUseWhois
      ≠ some true := by
  refine ⟨rfl, rfl, rfl, fun h => ?_⟩
  rw [show (isUserOnline freshProbeSt succProbeEnv "@u:example.com" 10 none).2.canUseWhois
      = some false from rfl] at h
  simp at h

/-- C2, amended: on a call with an unresolved capability flag, the probe
outcome is interpreted as: a failure with `statusCode` 403 makes the flag
unusable (`false`); a failure of any other shape makes it usable (`true`);
a *successful* probe request makes it unusable (`false`). -/
theorem c2_probe_interpretation (st : TrackerState) (env : Env)
    (userId : String) (maxTimeMs : Int) (defaultOnline? : Option Bool)
    (hnull : st.canUseWhois = none) :
    (isUserOnline st env userId maxTimeMs defaultOnline?).2.canUseWhois =
      some (match env.probe with
            | .success => false
            | .failure statusCode => statusCode != some 403) := by
  cases hp : env.probe with
  | success => simp [isUserOnline, resolveWhoisFlag, probeInterpret, hnull, hp]
  | failure statusCode =>
      simp [isUserOnline, resolveWhoisFlag, probeInterpret, hnull, hp]

/-- C2, witness: a probe failing with status 500 resolves the flag to
usable (`true`). -/
theorem c2_probe_interpretation_witness :
    (isUserOnline freshProbeSt failProbeEnv "@u:example.com" 10 none).2.canUseWhois
      = some true := by
  have h := c2_probe_interpretation freshProbeSt failProbeEnv "@u:example.com"
    10 none rfl
  simpa using h

/-- C3, confirmed: when the cache and presence signals are inconclusive, the
capability is usable, the user is local and the who-is request returns a
record with at least one connection, the call selects a connection with the
maximum `last_seen` across every device and session and returns
`online = (now - thatInstant < maxTimeMs)`, `inactiveMs = now - thatInstant`:
the most recent connection determines the verdict. -/
theorem c3_whois_most_recent (st : TrackerState) (env : Env) (userId : String)
    (maxTimeMs : Int) (defaultOnline? : Option Bool) (whois : WhoisInfo)
    (hcache : cacheVerdict (st.lastActiveTime userId) env.now maxTimeMs = none)
    (hpres : presenceVerdict st.opts.usePresence env.presence maxTimeMs = none)
    (hflag : resolveWhoisFlag st.canUseWhois env.probe = true)
    (hlocal : domainSegment userId = some st.opts.serverName)
    (hwhois : env.whois = .ok whois)
    (hne : whoisConnections whois ≠ []) :
    ∃ best ∈ whoisConnections whois,
      (∀ c ∈ whoisConnections whois, c.last_seen ≤ best.last_seen) ∧
      (isUserOnline st env userId maxTimeMs defaultOnline?).1 =
        Except.ok { online := decide (env.now - best.last_seen < maxTimeMs),
                    inactiveMs := env.now - best.last_seen } := by
  obtain ⟨hd, t, hsort, hmem, hmax⟩ := sortByLastSeenDesc_head_max _ hne
  refine ⟨hd, hmem, hmax, ?_⟩
  simp [isUserOnline, hcache, hpres, hflag, hlocal, hwhois, hsort]

/-- C3, witness: for the record `sampleWhois` with connections last seen at
-500, -2500 and -1500, clock 0 and `maxTimeMs = 1000`, the verdict is
derived from the most recent connection (last seen -500): online with
`inactiveMs = 500`. -/
theorem c3_whois_most_recent_witness :
    ∃ best ∈ whoisConnections sampleWhois,
      (∀ c ∈ whoisConnections sampleWhois, c.last_seen ≤ best.last_seen) ∧
      (isUserOnline whoisReadySt whoisEnv "@u:example.com" 1000 none).1 =
        Except.ok { online := decide (whoisEnv.now - best.last_seen < 1000),
                    inactiveMs := whoisEnv.now - best.last_seen } :=
  c3_whois_most_recent whoisReadySt whoisEnv "@u:example.com" 1000 none
    sampleWhois rfl rfl rfl rfl rfl (by decide)

/-- C4, confirmed: when the cache and presence signals are inconclusive and
the capability flag is unusable or the user id's domain segment differs from
the configured `serverName`, the call returns `inactiveMs = -1` and `online`
equal to the explicit `defaultOnline` argument when one is passed, otherwise
equal to the configured `defaultOnline` option. -/
theorem c4_default_fallback (st : TrackerState) (env : Env) (userId : String)
    (maxTimeMs : Int) (defaultOnline? : Option Bool)
    (hcache : cacheVerdict (st.lastActiveTime userId) env.now maxTimeMs = none)
    (hpres : presenceVerdict st.opts.usePresence env.presence maxTimeMs = none)
    (hbranch : resolveWhoisFlag st.canUseWhois env.probe = false ∨
               domainSegment userId ≠ some st.opts.serverName) :
    (isUserOnline st env userId maxTimeMs defaultOnline?).1 =
      Except.ok { online := match defaultOnline? with
                            | some b => b
                            | none => st.opts.defaultOnline,
                  inactiveMs := -1 } := by
  have hcond : (!resolveWhoisFlag st.canUseWhois env.probe ||
      (domainSegment userId != some st.opts.serverName)) = true := by
    rcases hbranch with h | h
    · simp [h]
    · simp [bne_iff_ne, h]
  simp [isUserOnline, hcache, hpres, hcond]

/-- C4, witness: with an empty cache, presence disabled, capability unusable
and an explicit `defaultOnline = some true` overriding the configured
`false`, the call answers `online = true, inactiveMs = -1`. -/
theorem c4_default_fallback_witness :
    (isUserOnline noWhoisSt quietEnv "@u:example.com" 10 (some true)).1 =
      Except.ok { online := true, inactiveMs := -1 } :=
  c4_default_fallback noWhoisSt quietEnv "@u:example.com" 10 (some true)
    rfl rfl (Or.inl rfl)

/-- C5, confirmed: when presence is enabled, the cache did not short-circuit
and the snapshot reports `currentlyActive = true` or state `"online"`, the
call returns `online = true` with `inactiveMs` equal to the snapshot's
`lastActiveAgo`, or 0 when that field is absent. -/
theorem c5_presence_active (st : TrackerState) (env : Env) (userId : String)
    (maxTimeMs : Int) (defaultOnline? : Option Bool) (p : Presence)
    (hcache : cacheVerdict (st.lastActiveTime userId) env.now maxTimeMs = none)
    (hup : st.opts.usePresence = true)
    (hpres : env.presence = .ok p)
    (hact : p.currentlyActive = true ∨ p.state = "online") :
    (isUserOnline st env userId maxTimeMs defaultOnline?).1 =
      Except.ok { online := true,
                  inactiveMs := match p.lastActiveAgo with
                                | some v => v
                                | none => 0 } := by
  have hcond : (p.currentlyActive || p.state == "online") = true := by
    rcases hact with h | h
    · simp [h]
    · simp [h]
  have hp : presenceVerdict st.opts.usePresence env.presence maxTimeMs =
      some { online := true,
             inactiveMs := match p.lastActiveAgo with
                           | some v => v
                           | none => 0 } := by
    simp only [presenceVerdict, hup, hpres, hcond, if_true]
  simp [isUserOnline, hcache, hp]

/-- C5, witness: a currently-active snapshot with `lastActiveAgo = 200`
yields `online = true, inactiveMs = 200` even though its state is
`"unavailable"`. -/
theorem c5_presence_active_witness :
    (isUserOnline presenceSt presenceEnv "@u:example.com" 10 none).1 =
      Except.ok { online := true, inactiveMs := 200 } :=
  c5_presence_active presenceSt presenceEnv "@u:example.com" 10 none
    activePresence rfl rfl rfl (Or.inl rfl)

/-- C6, confirmed: a failed presence request is swallowed; the whole call —
outcome and final state — is the one it would have with a presence snapshot
carrying no conclusive signal, so no presence failure ever reaches the
caller. -/
theorem c6_presence_failure_swallowed (st : TrackerState) (env : Env)
    (userId : String) (maxTimeMs : Int) (defaultOnline? : Option Bool)
    (hfail : env.presence = .error ()) :
    isUserOnline st env userId maxTimeMs defaultOnline? =
      isUserOnline st
        { probe := env.probe, presence := .ok inconclusivePresence,
          whois := env.whois, now := env.now }
        userId maxTimeMs defaultOnline? := by
  have h1 : ∀ b m, presenceVerdict b (Except.error ()) m = none := by
    intro b m; cases b <;> rfl
  have h2 : ∀ b m, presenceVerdict b (Except.ok inconclusivePresence) m = none := by
    intro b m; cases b <;> rfl
  simp [isUserOnline, hfail, h1, h2]

/-- C6, witness: with the failing presence request of `quietEnv`, the call on
`bumpedSt` coincides with the same call fed an inconclusive snapshot. -/
theorem c6_presence_failure_swallowed_witness :
    isUserOnline bumpedSt quietEnv "@u:example.com" 10 none =
      isUserOnline bumpedSt
        { probe := quietEnv.probe, presence := .ok inconclusivePresence,
          whois := quietEnv.whois, now := quietEnv.now }
        "@u:example.com" 10 none :=
  c6_presence_failure_swallowed bumpedSt quietEnv "@u:example.com" 10 none rfl

/-- C7, counterexample: the claim fails — a non-403 probe failure is *not*
propagated.  With an unresolved flag and a probe failing with status 500, the
call on the remote user `"@u:other.com"` returns the verdict
`online = false, inactiveMs = -1` (and marks the capability usable) instead
of failing: the `catch` on lines 83–86 swallows every probe failure. -/
theorem c7_probe_failure_not_propagated_cex :
    freshProbeSt.canUseWhois = none ∧
    failProbeEnv.probe = .failure (some 500) ∧
    (some (500 : Int)) ≠ some 403 ∧
    (isUserOnline freshProbeSt failProbeEnv "@u:other.com" 10 none).1 =
      Except.ok { online := false, inactiveMs := -1 } ∧
    (isUserOnline freshProbeSt failProbeEnv "@u:other.com" 10 none).2.canUseWhois
      = some true :=
  ⟨rfl, rfl, by decide, rfl, rfl⟩

/-- C7, amended: when the capability probe fails with any failure other than
the 403 rejection, `isUserOnline` swallows the failure, resolves the
capability flag to usable (`true`), and behaves exactly as if the capability
had already been resolved usable; the probe failure is never propagated. -/
theorem c7_probe_failure_swallowed (st : TrackerState) (env : Env)
    (userId : String) (maxTimeMs : Int) (defaultOnline? : Option Bool)
    (statusCode : Option Int)
    (hnull : st.canUseWhois = none)
    (hprobe : env.probe = .failure statusCode)
    (hnon403 : statusCode ≠ some 403) :
    isUserOnline st env userId maxTimeMs defaultOnline? =
      isUserOnline { st with canUseWhois := some true } env userId maxTimeMs
        defaultOnline? ∧
    (isUserOnline st env userId maxTimeMs defaultOnline?).2.canUseWhois
      = some true := by
  have hflag : resolveWhoisFlag st.canUseWhois env.probe = true := by
    simp [resolveWhoisFlag, probeInterpret, hnull, hprobe, bne_iff_ne, hnon403]
  have hsome : ∀ b p, resolveWhoisFlag (some b) p = b := fun b p => rfl
  constructor
  · simp [isUserOnline, hflag, hsome]
  · simp [isUserOnline, hflag]

/-- C7, witness: the amended behavior at the concrete input of the
counterexample — the probe failing with status 500 leaves the call equal to
one on a tracker whose capability is already usable. -/
theorem c7_probe_failure_swallowed_witness :
    isUserOnline freshProbeSt failProbeEnv "@u:other.com" 10 none =
      isUserOnline { freshProbeSt with canUseWhois := some true } failProbeEnv
        "@u:other.com" 10 none ∧
    (isUserOnline freshProbeSt failProbeEnv "@u:other.com" 10 none).2.canUseWhois
      = some true :=
  c7_probe_failure_swallowed freshProbeSt failProbeEnv "@u:other.com" 10 none
    (some 500) rfl rfl (by decide)

/-- C8, confirmed: the capability flag starts `null` at construction, is a
boolean after every call, is set on a first call to the interpretation of
that call's probe outcome, and on a call with an already-resolved flag it is
left unchanged and the call's entire outcome is independent of the probe
outcome (no probe request is consulted). -/
theorem c8_capability_resolved_once (st : TrackerState) (env : Env)
    (userId : String) (maxTimeMs : Int) (defaultOnline? : Option Bool) :
    (∀ s dOn uP, (mkTracker s dOn uP).canUseWhois = none) ∧
    ((isUserOnline st env userId maxTimeMs defaultOnline?).2.canUseWhois).isSome
      = true ∧
    (st.canUseWhois = none →
      (isUserOnline st env userId maxTimeMs defaultOnline?).2.canUseWhois =
        some (probeInterpret env.probe)) ∧
    (∀ b, st.canUseWhois = some b →
      (isUserOnline st env userId maxTimeMs defaultOnline?).2.canUseWhois =
        some b ∧
      ∀ p, isUserOnline st
          { probe := p, presence := env.presence, whois := env.whois,
            now := env.now } userId maxTimeMs defaultOnline? =
        isUserOnline st env userId maxTimeMs defaultOnline?) := by
  refine ⟨fun s dOn uP => rfl, rfl, fun h => ?_, fun b hb => ⟨?_, fun p => ?_⟩⟩
  · simp [isUserOnline, resolveWhoisFlag, h]
  · simp [isUserOnline, resolveWhoisFlag, hb]
  · simp [isUserOnline, resolveWhoisFlag, hb]

/-- C8, witness: on `whoisReadySt` (flag already `some true`), the flag stays
`some true` and swapping the probe outcome for a success leaves the whole
call unchanged. -/
theorem c8_capability_resolved_once_witness :
    (isUserOnline whoisReadySt quietEnv "@u:example.com" 10 none).2.canUseWhois
      = some true ∧
    isUserOnline whoisReadySt
        { probe := .success, presence := quietEnv.presence,
          whois := quietEnv.whois, now := quietEnv.now }
        "@u:example.com" 10 none =
      isUserOnline whoisReadySt quietEnv "@u:example.com" 10 none := by
  have h := (c8_capability_resolved_once whoisReadySt quietEnv "@u:example.com"
    10 none).2.2.2 true rfl
  exact ⟨h.1, h.2 .success⟩

/-- C9, confirmed: when the who-is step is reached and the record's flattened
connection collection is empty, the operation fails (the JS code reads
`.last_seen` of `undefined`) instead of returning a verdict. -/
theorem c9_empty_whois_fails (st : TrackerState) (env : Env) (userId : String)
    (maxTimeMs : Int) (defaultOnline? : Option Bool) (whois : WhoisInfo)
    (hcache : cacheVerdict (st.lastActiveTime userId) env.now maxTimeMs = none)
    (hpres : presenceVerdict st.opts.usePresence env.presence maxTimeMs = none)
    (hflag : resolveWhoisFlag st.canUseWhois env.probe = true)
    (hlocal : domainSegment userId = some st.opts.serverName)
    (hwhois : env.whois = .ok whois)
    (hempty : whoisConnections whois = []) :
    (isUserOnline st env userId maxTimeMs defaultOnline?).1 =
      Except.error .emptyConnections := by
  simp [isUserOnline, hcache, hpres, hflag, hlocal, hwhois, hempty,
    sortByLastSeenDesc]

/-- C9, witness: a who-is record with one device, one session and zero
connections makes the call fail. -/
theorem c9_empty_whois_fails_witness :
    (isUserOnline whoisReadySt emptyWhoisEnv "@u:example.com" 1000 none).1 =
      Except.error .emptyConnections :=
  c9_empty_whois_fails whoisReadySt emptyWhoisEnv "@u:example.com" 1000 none
    ⟨[⟨[⟨[]⟩]⟩]⟩ rfl rfl rfl rfl rfl rfl

/-- C10, confirmed (frame): `isUserOnline` leaves the recency cache and the
options untouched for every input — the only state it may mutate is the
capability flag — while `bumpLastActiveTime` and `setLastActiveTime` write
exactly the entry of the given user and touch nothing else. -/
theorem c10_cache_frame (st : TrackerState) (env : Env) (userId v : String)
    (maxTimeMs : Int) (defaultOnline? : Option Bool) (t : Int) :
    (isUserOnline st env userId maxTimeMs defaultOnline?).2.lastActiveTime
      = st.lastActiveTime ∧
    (isUserOnline st env userId maxTimeMs defaultOnline?).2.opts = st.opts ∧
    (bumpLastActiveTime st userId t).lastActiveTime userId = some t ∧
    (v ≠ userId →
      (bumpLastActiveTime st userId t).lastActiveTime v = st.lastActiveTime v) ∧
    (setLastActiveTime st userId t).lastActiveTime userId = some t ∧
    (v ≠ userId →
      (setLastActiveTime st userId t).lastActiveTime v = st.lastActiveTime v) ∧
    (bumpLastActiveTime st userId t).canUseWhois = st.canUseWhois ∧
    (bumpLastActiveTime st userId t).opts = st.opts ∧
    (setLastActiveTime st userId t).canUseWhois = st.canUseWhois ∧
    (setLastActiveTime st userId t).opts = st.opts := by
  refine ⟨rfl, rfl, by simp [bumpLastActiveTime], fun h => ?_,
    by simp [setLastActiveTime], fun h => ?_, rfl, rfl, rfl, rfl⟩
  · simp [bumpLastActiveTime, h]
  · simp [setLastActiveTime, h]

/-- C10, witness: a call on `bumpedSt` leaves its cache intact, and bumping
`"@u:example.com"` does not disturb the entry of `"@v:example.com"`. -/
theorem c10_cache_frame_witness :
    (isUserOnline bumpedSt quietEnv "@u:example.com" 10 none).2.lastActiveTime
      = bumpedSt.lastActiveTime ∧
    (bumpLastActiveTime bumpedSt "@u:example.com" 7).lastActiveTime
      "@v:example.com" = bumpedSt.lastActiveTime "@v:example.com" := by
  have h := c10_cache_frame bumpedSt quietEnv "@u:example.com" "@v:example.com"
    10 none 7
  exact ⟨h.1, h.2.2.2.1 (by decide)⟩
